import Mathlib

/-!
Verification of the audio control loop of `iRadioAudio.cpp` (RT-CUSTOMZ/iRadio).

The C++ source is shallowly embedded: Arduino `String` values become `List Char`,
the 8-bit unsigned globals (`oldvolume`, `volcount`) become `Nat` with explicit
`% 256` at every `uint8_t` conversion boundary, `int` values stay unbounded,
and the four display lines of `streamingScreen` become explicit state fields
(the Display Surface contract `setText(text, region)` is a plain field update).
External collaborators (`analogRead`, `millis`, `getTime`, `getCurrentStation`,
the audio decoder) are supplied as parameters; `audio.setVolume` calls are
recorded in the tick's output.
-/

/-- Maximum volume accepted by the audio library, `constexpr uint8_t volume_max = 20`. -/
def volume_max : Nat := 20

/-- Glyph table `constexpr u_int8_t volumeBlocks[5] = {0xD4, 0xD3, 0xD2, 0xD1, 0xD0}`:
a 4-step partial-block gradient followed by the full-block glyph. -/
def volumeBlocks : List Nat := [0xD4, 0xD3, 0xD2, 0xD1, 0xD0]

/-- Arduino `map(x, in_min, in_max, out_min, out_max)`:
`(x - in_min) * (out_max - out_min) / (in_max - in_min) + out_min` with
integer division.  All uses in this file have nonnegative arguments, so `Nat`
with truncated subtraction agrees with the C `long` arithmetic. -/
def arduinoMap (x inMin inMax outMin outMax : Nat) : Nat :=
  (x - inMin) * (outMax - outMin) / (inMax - inMin) + outMin

/-- `getBlocks(uint8_t volume)`: `volume / 5` full blocks, one partial block
`volumeBlocks[volume % 5 - 1]` when `volume % 5 != 0`, a `"!"` marker when
`volume >= 20`, then `" "` appended while the length is below 7. -/
def getBlocks (volume : Nat) : List Char :=
  let full : List Char := List.replicate (volume / 5) (Char.ofNat (volumeBlocks.getD 4 0))
  let withPart : List Char :=
    if volume % 5 ≠ 0 then full ++ [Char.ofNat (volumeBlocks.getD (volume % 5 - 1) 0)]
    else full
  let withMark : List Char := if volume ≥ 20 then withPart ++ ['!'] else withPart
  withMark ++ List.replicate (7 - withMark.length) ' '

/-- The mapping applied to the raw analog sample in `loopAudioLautst`:
`volume = analogRead(VOL); volume = map(volume, 0, 1023, 0, volume_max);`
(`volume` is an `int`, so no truncation happens before the map). -/
def mapVol (raw : Nat) : Nat :=
  arduinoMap raw 0 1023 0 volume_max

/-- The volume computed by `setupAudio`:
`oldvolume = analogRead(VOL);` truncates the 10-bit sample into the
`uint8_t` global (`% 256`) before `oldvolume = map(oldvolume, 0, 1023, 0, volume_max)`. -/
def setupVolume (raw : Nat) : Nat :=
  arduinoMap (raw % 256) 0 1023 0 volume_max

/-- The module's mutable state: the three volume-smoothing globals
(`oldvolume : uint8_t`, `volcount : uint8_t`, `voldisplaystart : int`, modelled
as `Nat` since all stored values are nonnegative) together with the four text
regions of `streamingScreen` (region `i` is line `i`). -/
structure AudioState where
  oldvolume : Nat
  volcount : Nat
  voldisplaystart : Nat
  region0 : List Char
  region1 : List Char
  region2 : List Char
  region3 : List Char

/-- The default status line written by `loopAudioLautst` when the volume display
has expired: `"iRadio  " + getTime() + "      "`. `getTime()` is an external
collaborator and is passed in as `timeStr`. -/
def defaultStatusText (timeStr : List Char) : List Char :=
  ("iRadio  ".toList) ++ timeStr ++ ("      ".toList)

/-- Result of one call to `loopAudioLautst`: the updated state and the argument
of the `audio.setVolume` call when one happened this tick. -/
structure TickResult where
  state : AudioState
  setVolumeCall : Option Nat

/-- One call of `loopAudioLautst()`.  Inputs: `raw` is `analogRead(VOL)`,
`now` is `millis()` (both calls to `millis()` within one tick see the same
value), `timeStr` is `getTime()`.  Steps, in source order:
revert region 0 to the default status text when `voldisplaystart + 2000 < millis()`;
map the sample; if it differs from `oldvolume`, either bump `volcount`
(when `volcount < 25`) or commit — `volcount = 0`, `voldisplaystart = millis()`,
`audio.setVolume(volume)`, write `getBlocks(volume)` to region 0,
`oldvolume = volume` (a `uint8_t` store, hence `% 256`); if the sample equals
`oldvolume`, reset `volcount` to 0. -/
def loopAudioLautst (raw now : Nat) (timeStr : List Char) (s : AudioState) : TickResult :=
  let s1 : AudioState :=
    if s.voldisplaystart + 2000 < now then { s with region0 := defaultStatusText timeStr }
    else s
  let volume : Nat := mapVol raw
  if volume ≠ s1.oldvolume then
    if s1.volcount < 25 then
      ⟨{ s1 with volcount := s1.volcount + 1 }, none⟩
    else
      ⟨{ s1 with volcount := 0,
                 voldisplaystart := now,
                 region0 := getBlocks (volume % 256),
                 oldvolume := volume % 256 },
        some volume⟩
  else
    ⟨{ s1 with volcount := 0 }, none⟩

/-- Iterate `loopAudioLautst` with a fixed sample, timestamp and clock string,
collecting every `audio.setVolume` argument in call order. -/
def runVol (raw now : Nat) (timeStr : List Char) : Nat → AudioState → AudioState × List Nat
  | 0, s => (s, [])
  | n + 1, s =>
    let r := loopAudioLautst raw now timeStr s
    let rest := runVol raw now timeStr n r.state
    (rest.1, (match r.setVolumeCall with | some v => [v] | none => []) ++ rest.2)

/-- `true` when `pat` is an initial segment of `s` (character-by-character
comparison, as the Arduino `String` search does at each candidate offset). -/
def listStartsWith : List Char → List Char → Bool
  | _, [] => true
  | [], _ :: _ => false
  | c :: s, d :: pat => c == d && listStartsWith s pat

/-- First offset at which `pat` occurs in `s`, if any — the search underlying
Arduino `String::indexOf`. -/
def firstIndexOf : List Char → List Char → Option Nat
  | [], pat => if pat.isEmpty then some 0 else none
  | c :: s, pat =>
    if listStartsWith (c :: s) pat then some 0
    else (firstIndexOf s pat).map (fun n => n + 1)

/-- Arduino `String::indexOf`: the first occurrence of `pat` in `s`, or `-1`
when there is none. -/
def strIndexOf (s pat : List Char) : Int :=
  match firstIndexOf s pat with
  | some n => (n : Int)
  | none => -1

/-- C++ conversion of an `int` to `uint8_t`: reduction modulo 256
(`-1` becomes `255`). -/
def cppUInt8 (i : Int) : Nat :=
  (i % 256).toNat

/-- Arduino `String::substring(left, right)`: swap when `left > right` (so the
lower end is `min left right` and the upper end `max left right`), return `""`
when the lower end is at or past the end, clamp the upper end to the length,
and return the characters in `[lower, upper)`. -/
def substringA (s : List Char) (left right : Nat) : List Char :=
  if min left right ≥ s.length then []
  else (s.take (min (max left right) s.length)).drop (min left right)

/-- The primary artist/title separator searched first, `" - "`. -/
def primarySep : List Char := (" - ".toList)

/-- The secondary separator tried when the primary search yields index 0, `": "`. -/
def secondarySep : List Char := (": ".toList)

/-- The split computed by `audio_showstreamtitle`:
`uint8_t p = name.indexOf(" - "); if (p == 0) { p = name.indexOf(": "); }`
then artist `name.substring(0, p)` and title `name.substring(p + 3, name.length())`.
The caller first applies `extraChar` (display-charset transcoding defined
outside this file); following the spec's `parse(raw)` contract that step is
taken as the identity, so `name` here is the raw stream title. -/
def parseStreamTitle (name : List Char) : List Char × List Char :=
  let p0 : Nat := cppUInt8 (strIndexOf name primarySep)
  let p : Nat := if p0 = 0 then cppUInt8 (strIndexOf name secondarySep) else p0
  (substringA name 0 p, substringA name (p + 3) name.length)

/-- The display effect of `audio_showstreamtitle`: the artist half goes to
region 2 and the title half to region 3; no other region is touched. -/
def audio_showstreamtitle (name : List Char) (s : AudioState) : AudioState :=
  { s with region2 := (parseStreamTitle name).1,
           region3 := (parseStreamTitle name).2 }

/-- The display effect of `audio_showstation(theStation)`: the stream-supplied
argument is ignored (the `setText(String(theStation), 1)` line is commented
out); instead `getCurrentStation().name` — the user-assigned station name from
the Station Directory collaborator, passed in as `stationName` — is written to
region 1. -/
def audio_showstation (theStation : List Char) (stationName : List Char)
    (s : AudioState) : AudioState :=
  let _ := theStation
  { s with region1 := stationName }

theorem substringA_take (s : List Char) (q : Nat) (h : q ≤ s.length) :
    substringA s 0 q = s.take q := by
  unfold substringA
  rw [min_eq_left (Nat.zero_le q), max_eq_right (Nat.zero_le q)]
  by_cases hz : (0 : Nat) ≥ s.length
  · cases s with
    | nil => simp
    | cons a l => simp at hz
  · rw [if_neg hz, min_eq_left h, List.drop_zero]

theorem substringA_drop (s : List Char) (q : Nat) (h : q ≤ s.length) :
    substringA s q s.length = s.drop q := by
  unfold substringA
  rw [min_eq_left h, max_eq_right h]
  by_cases hz : q ≥ s.length
  · rw [if_pos hz]
    have hq : q = s.length := le_antisymm h hz
    rw [hq, List.drop_length]
  · rw [if_neg hz, min_self, List.take_length]

theorem substringA_all (s : List Char) (n : Nat) (h : s.length ≤ n) :
    substringA s 0 n = s := by
  unfold substringA
  rw [min_eq_left (Nat.zero_le n), max_eq_right (Nat.zero_le n)]
  by_cases hz : (0 : Nat) ≥ s.length
  · cases s with
    | nil => simp
    | cons a l => simp at hz
  · rw [if_neg hz, min_eq_right h, List.take_length, List.drop_zero]

theorem substringA_out (s : List Char) (l r : Nat) (h : s.length ≤ min l r) :
    substringA s l r = [] := by
  unfold substringA
  rw [if_pos h]

theorem listStartsWith_le {s pat : List Char} (h : listStartsWith s pat = true) :
    pat.length ≤ s.length := by
  induction pat generalizing s with
  | nil => exact Nat.zero_le _
  | cons d ds ih =>
    cases s with
    | nil => simp [listStartsWith] at h
    | cons c cs =>
      simp only [listStartsWith, Bool.and_eq_true] at h
      have := ih h.2
      simp only [List.length_cons]
      omega

theorem firstIndexOf_bound {s pat : List Char} {q : Nat}
    (h : firstIndexOf s pat = some q) : q + pat.length ≤ s.length := by
  induction s generalizing q with
  | nil =>
    unfold firstIndexOf at h
    by_cases hp : pat.isEmpty
    · rw [if_pos hp] at h
      have hq : (0 : Nat) = q := by injection h
      have hpl : pat = [] := List.isEmpty_iff.mp hp
      subst hpl
      omega
    · rw [if_neg hp] at h
      exact absurd h (by simp)
  | cons c cs ih =>
    unfold firstIndexOf at h
    by_cases hs : listStartsWith (c :: cs) pat = true
    · rw [if_pos hs] at h
      have hq : (0 : Nat) = q := by injection h
      have := listStartsWith_le hs
      omega
    · rw [if_neg hs] at h
      cases hfi : firstIndexOf cs pat with
      | none => rw [hfi] at h; simp at h
      | some q2 =>
        rw [hfi] at h
        have hq : q2 + 1 = q := by simpa using h
        have := ih hfi
        simp only [List.length_cons]
        omega

theorem mapVol_le (raw : Nat) (h : raw ≤ 1023) : mapVol raw ≤ 20 := by
  unfold mapVol arduinoMap volume_max
  simp only [Nat.sub_zero, Nat.add_zero]
  calc raw * 20 / 1023 ≤ 1023 * 20 / 1023 :=
        Nat.div_le_div_right (mul_le_mul_right' h 20)
    _ = 20 := by norm_num

theorem mapVol_mod (raw : Nat) (h : raw ≤ 1023) : mapVol raw % 256 = mapVol raw :=
  Nat.mod_eq_of_lt (lt_of_le_of_lt (mapVol_le raw h) (by norm_num))

theorem setupVolume_le (raw : Nat) : setupVolume raw ≤ 20 := by
  unfold setupVolume arduinoMap volume_max
  simp only [Nat.sub_zero, Nat.add_zero]
  have h : raw % 256 ≤ 255 := Nat.le_of_lt_succ (Nat.mod_lt raw (by norm_num))
  calc raw % 256 * 20 / 1023 ≤ 255 * 20 / 1023 :=
        Nat.div_le_div_right (mul_le_mul_right' h 20)
    _ ≤ 20 := by norm_num

theorem tick_equal (raw now : Nat) (t : List Char) (s : AudioState)
    (h : mapVol raw = s.oldvolume) :
    (loopAudioLautst raw now t s).setVolumeCall = none ∧
    (loopAudioLautst raw now t s).state.volcount = 0 ∧
    (loopAudioLautst raw now t s).state.oldvolume = s.oldvolume ∧
    (loopAudioLautst raw now t s).state.voldisplaystart = s.voldisplaystart := by
  by_cases hrev : s.voldisplaystart + 2000 < now
  · simp [loopAudioLautst, hrev, h]
  · simp [loopAudioLautst, hrev, h]

theorem tick_incr (raw now : Nat) (t : List Char) (s : AudioState)
    (h : mapVol raw ≠ s.oldvolume) (hc : s.volcount < 25) :
    (loopAudioLautst raw now t s).setVolumeCall = none ∧
    (loopAudioLautst raw now t s).state.volcount = s.volcount + 1 ∧
    (loopAudioLautst raw now t s).state.oldvolume = s.oldvolume ∧
    (loopAudioLautst raw now t s).state.voldisplaystart = s.voldisplaystart := by
  by_cases hrev : s.voldisplaystart + 2000 < now
  · simp [loopAudioLautst, hrev, h, hc]
  · simp [loopAudioLautst, hrev, h, hc]

theorem tick_commit (raw now : Nat) (t : List Char) (s : AudioState)
    (h : mapVol raw ≠ s.oldvolume) (hc : ¬ s.volcount < 25) :
    (loopAudioLautst raw now t s).setVolumeCall = some (mapVol raw) ∧
    (loopAudioLautst raw now t s).state.volcount = 0 ∧
    (loopAudioLautst raw now t s).state.oldvolume = mapVol raw % 256 ∧
    (loopAudioLautst raw now t s).state.voldisplaystart = now ∧
    (loopAudioLautst raw now t s).state.region0 = getBlocks (mapVol raw % 256) := by
  by_cases hrev : s.voldisplaystart + 2000 < now
  · simp [loopAudioLautst, hrev, h, hc]
  · simp [loopAudioLautst, hrev, h, hc]

theorem tick_keeps_metadata (raw now : Nat) (t : List Char) (s : AudioState) :
    (loopAudioLautst raw now t s).state.region1 = s.region1 ∧
    (loopAudioLautst raw now t s).state.region2 = s.region2 ∧
    (loopAudioLautst raw now t s).state.region3 = s.region3 := by
  by_cases hrev : s.voldisplaystart + 2000 < now
  · by_cases h : mapVol raw ≠ s.oldvolume
    · by_cases hc : s.volcount < 25
      · simp [loopAudioLautst, hrev, h, hc]
      · simp [loopAudioLautst, hrev, h, hc]
    · simp [loopAudioLautst, hrev, h]
  · by_cases h : mapVol raw ≠ s.oldvolume
    · by_cases hc : s.volcount < 25
      · simp [loopAudioLautst, hrev, h, hc]
      · simp [loopAudioLautst, hrev, h, hc]
    · simp [loopAudioLautst, hrev, h]

theorem runVol_stable (raw now : Nat) (t : List Char) :
    ∀ (n : Nat) (s : AudioState), mapVol raw ≠ s.oldvolume → s.volcount + n ≤ 25 →
      (runVol raw now t n s).1.volcount = s.volcount + n ∧
      (runVol raw now t n s).1.oldvolume = s.oldvolume ∧
      (runVol raw now t n s).2 = [] := by
  intro n
  induction n with
  | zero => intro s h hle; simp [runVol]
  | succ n ih =>
    intro s h hle
    have hc : s.volcount < 25 := by omega
    obtain ⟨hnone, hcount, hold, _⟩ := tick_incr raw now t s h hc
    have ihr := ih (loopAudioLautst raw now t s).state (by rw [hold]; exact h) (by omega)
    simp only [runVol, hnone]
    refine ⟨?_, ?_, ?_⟩
    · rw [ihr.1, hcount]; omega
    · rw [ihr.2.1, hold]
    · simpa using ihr.2.2

theorem runVol_commits (raw now : Nat) (t : List Char) :
    ∀ (n : Nat) (s : AudioState), mapVol raw ≠ s.oldvolume →
      s.volcount ≤ 25 → s.volcount + n = 26 →
      (runVol raw now t n s).2 = [mapVol raw] := by
  intro n
  induction n with
  | zero => intro s h hle hsum; omega
  | succ n ih =>
    intro s h hle hsum
    by_cases hc : s.volcount < 25
    · obtain ⟨hnone, hcount, hold, _⟩ := tick_incr raw now t s h hc
      have ihr := ih (loopAudioLautst raw now t s).state (by rw [hold]; exact h)
        (by omega) (by omega)
      simp only [runVol, hnone]
      simpa using ihr
    · obtain ⟨hsome, _, _, _, _⟩ := tick_commit raw now t s h hc
      have hn : n = 0 := by omega
      subst hn
      simp only [runVol, hsome]
      simp [runVol]


/-- C6: for every volume level L in the closed range [0, 20], the indicator
formatter `getBlocks L` returns a string of length exactly 7. -/
theorem c6_getBlocks_length (L : Nat) (h : L ≤ 20) : (getBlocks L).length = 7 := by
  interval_cases L <;> decide

/-- C6 witness: `getBlocks 13` has length 7, by the theorem at L = 13. -/
theorem c6_getBlocks_length_witness : 13 ≤ 20 ∧ (getBlocks 13).length = 7 :=
  ⟨by decide, c6_getBlocks_length 13 (by decide)⟩

/-- C5 counterexample: the claim describes `getBlocks 13` as 2 full glyphs,
the gradient-index-2 partial glyph, and 2 pad spaces; the code pads to length
7, so there are 4 pad spaces and the claimed 5-character string is not the
result. -/
theorem c5_level13_two_pads_cex :
    getBlocks 13 ≠ [Char.ofNat 0xD0, Char.ofNat 0xD0, Char.ofNat 0xD2, ' ', ' '] := by
  decide

/-- C5 amended: `getBlocks 13` is 2 full glyphs, the partial glyph of gradient
index 2 (13 % 5 = 3, table entry `volumeBlocks[2] = 0xD2`), and FOUR pad
spaces, total length 7; `getBlocks 20` is 4 full glyphs, the overflow marker
`!`, and 2 pad spaces, total length 7. -/
theorem c5_block_examples_amended :
    getBlocks 13 =
      [Char.ofNat 0xD0, Char.ofNat 0xD0, Char.ofNat 0xD2, ' ', ' ', ' ', ' '] ∧
    (getBlocks 13).length = 7 ∧
    getBlocks 20 =
      [Char.ofNat 0xD0, Char.ofNat 0xD0, Char.ofNat 0xD0, Char.ofNat 0xD0, '!', ' ', ' '] ∧
    (getBlocks 20).length = 7 := by
  decide

/-- C3 counterexample: `"LiveStreamNoSplit"` contains neither separator, yet
it does NOT parse to artist = "" and title = the whole string: the `uint8_t`
sentinel 255 makes `substring(0, 255)` return the whole string as the ARTIST
and `substring(258, len)` return "" as the title. -/
theorem c3_no_separator_cex :
    ¬ ((parseStreamTitle ("LiveStreamNoSplit".toList)).1 = [] ∧
       (parseStreamTitle ("LiveStreamNoSplit".toList)).2 = ("LiveStreamNoSplit".toList)) := by
  decide

/-- C3 amended: for every raw title (length ≤ 255) containing neither " - "
nor ": ", `indexOf` returns -1, the `uint8_t` store turns it into 255, the
zero test fails (so the secondary search never runs), and the parser emits
artist = the WHOLE input string and title = "" — the reverse of the claimed
fields. -/
theorem c3_no_separator_amended (s : List Char) (hlen : s.length ≤ 255)
    (h1 : firstIndexOf s primarySep = none)
    (_h2 : firstIndexOf s secondarySep = none) :
    parseStreamTitle s = (s, []) := by
  have h255 : cppUInt8 (strIndexOf s primarySep) = 255 := by
    have hstr : strIndexOf s primarySep = -1 := by simp [strIndexOf, h1]
    rw [hstr]
    decide
  simp only [parseStreamTitle, h255]
  rw [if_neg (by decide : ¬ (255 = 0))]
  refine Prod.ext ?_ ?_
  · exact substringA_all s 255 hlen
  · exact substringA_out s 258 s.length
      (by rw [min_eq_right (le_trans hlen (by norm_num : (255 : Nat) ≤ 258))])

/-- C3 witness: the amended theorem applied to `"LiveStreamNoSplit"`. -/
theorem c3_no_separator_amended_witness :
    parseStreamTitle ("LiveStreamNoSplit".toList) = (("LiveStreamNoSplit".toList), []) :=
  c3_no_separator_amended ("LiveStreamNoSplit".toList) (by decide) (by decide) (by decide)

/-- C4 counterexample: `"Artist: Song"` lacks " - " and contains ": ", yet the
parser does NOT split there: `indexOf(" - ")` returns -1, the `uint8_t` store
makes it 255 (not 0), so the secondary search is skipped and the result is
artist = "Artist: Song", title = "". -/
theorem c4_secondary_cex :
    ¬ ((parseStreamTitle ("Artist: Song".toList)).1 = ("Artist".toList) ∧
       (parseStreamTitle ("Artist: Song".toList)).2 = ("Song".toList)) := by
  decide

/-- C4 amended: when the primary separator " - " is absent, the stored index
is 255 (the `uint8_t` image of -1), which is nonzero, so the secondary
separator ": " is NEVER attempted even when present; for inputs of length
≤ 255 the parser instead emits artist = the whole string, title = "".  The
secondary search runs only when the primary search returns index 0. -/
theorem c4_secondary_ignored_amended (s : List Char) (q : Nat)
    (hlen : s.length ≤ 255)
    (h1 : firstIndexOf s primarySep = none)
    (_h2 : firstIndexOf s secondarySep = some q) :
    parseStreamTitle s = (s, []) := by
  have h255 : cppUInt8 (strIndexOf s primarySep) = 255 := by
    have hstr : strIndexOf s primarySep = -1 := by simp [strIndexOf, h1]
    rw [hstr]
    decide
  simp only [parseStreamTitle, h255]
  rw [if_neg (by decide : ¬ (255 = 0))]
  refine Prod.ext ?_ ?_
  · exact substringA_all s 255 hlen
  · exact substringA_out s 258 s.length
      (by rw [min_eq_right (le_trans hlen (by norm_num : (255 : Nat) ≤ 258))])

/-- C4 witness: the amended theorem applied to `"Artist: Song"`, whose
secondary separator sits at index 6. -/
theorem c4_secondary_ignored_amended_witness :
    parseStreamTitle ("Artist: Song".toList) = (("Artist: Song".toList), []) :=
  c4_secondary_ignored_amended ("Artist: Song".toList) 6 (by decide) (by decide) (by decide)

set_option maxRecDepth 16384 in
/-- C7 counterexample: a title whose first " - " sits at offset 256.  The
claim (artist = everything before the separator) predicts 256 characters of
artist, but `uint8_t p = indexOf(...)` truncates 256 to 0, the zero test then
sends the parser to the secondary search (which fails, giving p = 255), and
the artist comes out as only the first 255 characters. -/
theorem c7_primary_truncation_cex :
    firstIndexOf (List.replicate 256 'a' ++ primarySep ++ ['B']) primarySep = some 256 ∧
    (parseStreamTitle (List.replicate 256 'a' ++ primarySep ++ ['B'])).1 ≠
      (List.replicate 256 'a' ++ primarySep ++ ['B']).take 256 := by
  decide

/-- C7 amended: for every raw title whose first occurrence of " - " is at an
offset q with 0 < q ≤ 255 (so the `uint8_t` store preserves it), the parser
returns artist = the substring before the separator and title = the substring
after the separator's end; offsets of 256 and beyond are corrupted by the
`uint8_t` truncation. -/
theorem c7_primary_split_amended (s : List Char) (q : Nat)
    (h1 : firstIndexOf s primarySep = some q) (h2 : 0 < q) (h3 : q ≤ 255) :
    parseStreamTitle s = (s.take q, s.drop (q + 3)) := by
  have hb : q + 3 ≤ s.length := by
    have hfb := firstIndexOf_bound h1
    have hpl : primarySep.length = 3 := by decide
    omega
  have hq : cppUInt8 (strIndexOf s primarySep) = q := by
    have hstr : strIndexOf s primarySep = (q : Int) := by simp [strIndexOf, h1]
    rw [hstr]
    unfold cppUInt8
    rw [Int.emod_eq_of_lt (Int.ofNat_nonneg q) (by exact_mod_cast Nat.lt_of_le_of_lt h3 (by norm_num))]
    simp
  simp only [parseStreamTitle, hq]
  rw [if_neg (by omega : ¬ q = 0)]
  refine Prod.ext ?_ ?_
  · exact substringA_take s q (by omega)
  · exact substringA_drop s (q + 3) hb

/-- C7 witness: the amended theorem applied to
`"Radio Caprice - Industrial Mix"`, whose separator sits at offset 13,
giving artist = "Radio Caprice" and title = "Industrial Mix". -/
theorem c7_primary_split_amended_witness :
    parseStreamTitle ("Radio Caprice - Industrial Mix".toList) =
      (("Radio Caprice".toList), ("Industrial Mix".toList)) := by
  rw [c7_primary_split_amended ("Radio Caprice - Industrial Mix".toList) 13
    (by decide) (by decide) (by decide)]
  decide

/-- C1 counterexample: a tick whose raw mapped sample (7) differs from
`oldvolume` (5) and does not commit leaves `oldvolume` at 5 — the last
observed level is NOT updated to the raw sample at the end of every tick;
`oldvolume` changes only on a commit. -/
theorem c1_observed_update_cex :
    mapVol 400 ≠ (⟨5, 0, 0, [], [], [], []⟩ : AudioState).oldvolume ∧
    (loopAudioLautst 400 0 [] ⟨5, 0, 0, [], [], [], []⟩).setVolumeCall = none ∧
    (loopAudioLautst 400 0 [] ⟨5, 0, 0, [], [], [], []⟩).state.oldvolume = 5 ∧
    (loopAudioLautst 400 0 [] ⟨5, 0, 0, [], [], [], []⟩).state.oldvolume ≠ mapVol 400 := by
  decide

/-- C1 amended: per tick, a raw mapped sample equal to `oldvolume` resets
`volcount` to 0 with no commit; a differing sample with `volcount < 25` only
increments `volcount`, leaving `oldvolume` UNCHANGED (it is updated only on a
commit, so it is the last committed — not last observed — level); a differing
sample with `volcount = 25` commits: `audio.setVolume(volume)` is called, the
indicator `getBlocks volume` is written to region 0, `voldisplaystart := now`,
`volcount := 0` and `oldvolume := volume`.  Consequently, from `volcount = 0`,
26 consecutive ticks whose sample differs from `oldvolume` produce no commit
on the first 25 and exactly one commit on the 26th. -/
theorem c1_debounce_amended (raw now : Nat) (t : List Char) (s : AudioState)
    (hraw : raw ≤ 1023) :
    (mapVol raw = s.oldvolume →
      (loopAudioLautst raw now t s).state.volcount = 0 ∧
      (loopAudioLautst raw now t s).setVolumeCall = none ∧
      (loopAudioLautst raw now t s).state.oldvolume = s.oldvolume) ∧
    (mapVol raw ≠ s.oldvolume → s.volcount < 25 →
      (loopAudioLautst raw now t s).state.volcount = s.volcount + 1 ∧
      (loopAudioLautst raw now t s).setVolumeCall = none ∧
      (loopAudioLautst raw now t s).state.oldvolume = s.oldvolume) ∧
    (mapVol raw ≠ s.oldvolume → s.volcount = 25 →
      (loopAudioLautst raw now t s).setVolumeCall = some (mapVol raw) ∧
      (loopAudioLautst raw now t s).state.oldvolume = mapVol raw ∧
      (loopAudioLautst raw now t s).state.volcount = 0 ∧
      (loopAudioLautst raw now t s).state.region0 = getBlocks (mapVol raw) ∧
      (loopAudioLautst raw now t s).state.voldisplaystart = now) ∧
    (s.volcount = 0 → mapVol raw ≠ s.oldvolume →
      (runVol raw now t 25 s).2 = [] ∧ (runVol raw now t 26 s).2 = [mapVol raw]) := by
  refine ⟨?_, ?_, ?_, ?_⟩
  · intro h
    obtain ⟨a, b, c, _⟩ := tick_equal raw now t s h
    exact ⟨b, a, c⟩
  · intro h hc
    obtain ⟨a, b, c, _⟩ := tick_incr raw now t s h hc
    exact ⟨b, a, c⟩
  · intro h hc
    obtain ⟨a, b, c, d, e⟩ := tick_commit raw now t s h (by omega)
    rw [mapVol_mod raw hraw] at c e
    exact ⟨a, c, b, e, d⟩
  · intro h0 h
    refine ⟨(runVol_stable raw now t 25 s h (by omega)).2.2, ?_⟩
    exact runVol_commits raw now t 26 s h (by omega) (by omega)

/-- C1 witness: from `volcount = 0`, `oldvolume = 5` and the constant sample
400 (mapped level 7), 25 ticks commit nothing and the 26th run commits
exactly one `setVolume(7)`. -/
theorem c1_debounce_amended_witness :
    (runVol 400 0 [] 25 ⟨5, 0, 0, [], [], [], []⟩).2 = [] ∧
    (runVol 400 0 [] 26 ⟨5, 0, 0, [], [], [], []⟩).2 = [mapVol 400] :=
  (c1_debounce_amended 400 0 [] ⟨5, 0, 0, [], [], [], []⟩ (by decide)).2.2.2
    (by decide) (by decide)

/-- C2 counterexample: a commit at `now = 1000` records
`voldisplaystart = 1000`; at the tick occurring at `now = 3000 = t + HOLD_MS`
the revert condition `1000 + 2000 < 3000` is FALSE, so region 0 still shows
the indicator `getBlocks 7`, not the default status text the claim predicts
at that instant. -/
theorem c2_revert_at_expiry_cex :
    (loopAudioLautst 400 1000 ("12:34".toList)
        ⟨0, 25, 0, [], [], [], []⟩).state.voldisplaystart = 1000 ∧
    (loopAudioLautst 400 3000 ("12:34".toList)
        (loopAudioLautst 400 1000 ("12:34".toList)
          ⟨0, 25, 0, [], [], [], []⟩).state).state.region0 = getBlocks 7 ∧
    getBlocks 7 ≠ defaultStatusText ("12:34".toList) := by
  decide

/-- C2 amended: with `voldisplaystart = t` set by the last commit, a tick with
no commit (raw sample mapping to `oldvolume`) leaves region 0 unchanged — the
indicator persists — whenever `now ≤ t + HOLD_MS` (HOLD_MS = 2000), covering
both `now = t + HOLD_MS - 1` and `now = t + HOLD_MS`; the default status text
(application name + current time + padding) is written exactly when
`now > t + HOLD_MS`, i.e. the revert happens at `now ≥ expiry + 1`, one
millisecond later than the claimed `now ≥ expiry`. -/
theorem c2_hold_amended (raw now : Nat) (t : List Char) (s : AudioState)
    (hnc : mapVol raw = s.oldvolume) :
    (now ≤ s.voldisplaystart + 2000 →
      (loopAudioLautst raw now t s).state.region0 = s.region0) ∧
    (s.voldisplaystart + 2000 < now →
      (loopAudioLautst raw now t s).state.region0 = defaultStatusText t) := by
  constructor
  · intro hle
    have hrev : ¬ (s.voldisplaystart + 2000 < now) := by omega
    simp [loopAudioLautst, hrev, hnc]
  · intro hlt
    simp [loopAudioLautst, hlt, hnc]

/-- C2 witness: with `voldisplaystart = 1000` and region 0 holding the
indicator, a no-commit tick at `now = 3000` (= expiry) keeps the indicator,
and one at `now = 3001` writes the default status text. -/
theorem c2_hold_amended_witness :
    (loopAudioLautst 400 3000 ("12:34".toList)
        ⟨7, 3, 1000, getBlocks 7, [], [], []⟩).state.region0 = getBlocks 7 ∧
    (loopAudioLautst 400 3001 ("12:34".toList)
        ⟨7, 3, 1000, getBlocks 7, [], [], []⟩).state.region0 =
      defaultStatusText ("12:34".toList) :=
  ⟨(c2_hold_amended 400 3000 ("12:34".toList)
      ⟨7, 3, 1000, getBlocks 7, [], [], []⟩ (by decide)).1 (by decide),
   (c2_hold_amended 400 3001 ("12:34".toList)
      ⟨7, 3, 1000, getBlocks 7, [], [], []⟩ (by decide)).2 (by decide)⟩

/-- C8: for every raw analog reading in [0, 1023], the mapped volume level is
within [0, volume_max] (lower bound by Nat), the startup volume computed by
`setupAudio` is within [0, volume_max], and every `audio.setVolume` call made
by a tick passes exactly the mapped level — hence a value in range; no
out-of-range level is ever propagated. -/
theorem c8_volume_range (raw : Nat) (h : raw ≤ 1023) :
    mapVol raw ≤ volume_max ∧ setupVolume raw ≤ volume_max ∧
    ∀ (now : Nat) (t : List Char) (s : AudioState),
      (loopAudioLautst raw now t s).setVolumeCall = none ∨
      (loopAudioLautst raw now t s).setVolumeCall = some (mapVol raw) := by
  refine ⟨mapVol_le raw h, setupVolume_le raw, ?_⟩
  intro now t s
  by_cases he : mapVol raw = s.oldvolume
  · exact Or.inl (tick_equal raw now t s he).1
  · by_cases hc : s.volcount < 25
    · exact Or.inl (tick_incr raw now t s he hc).1
    · exact Or.inr (tick_commit raw now t s he hc).1

/-- C8 witness: the theorem at the extreme reading 1023, whose mapped level
is exactly volume_max = 20. -/
theorem c8_volume_range_witness :
    mapVol 1023 ≤ volume_max ∧ setupVolume 1023 ≤ volume_max :=
  ⟨(c8_volume_range 1023 (by decide)).1, (c8_volume_range 1023 (by decide)).2.1⟩

/-- C9: a metadata update writes the parsed artist to region 2 and the parsed
title to region 3 in the same call, for EVERY current display state (so also
while the volume indicator holds region 0), and touches no other region or
state field; conversely the volume tick never writes regions 1, 2 or 3, so
metadata updates during the volume-display hold are neither lost nor
deferred. -/
theorem c9_metadata_regions (name : List Char) (s : AudioState) :
    (audio_showstreamtitle name s).region2 = (parseStreamTitle name).1 ∧
    (audio_showstreamtitle name s).region3 = (parseStreamTitle name).2 ∧
    (audio_showstreamtitle name s).region0 = s.region0 ∧
    (audio_showstreamtitle name s).region1 = s.region1 ∧
    (audio_showstreamtitle name s).oldvolume = s.oldvolume ∧
    (audio_showstreamtitle name s).volcount = s.volcount ∧
    (audio_showstreamtitle name s).voldisplaystart = s.voldisplaystart ∧
    ∀ (raw now : Nat) (t : List Char) (s2 : AudioState),
      (loopAudioLautst raw now t s2).state.region1 = s2.region1 ∧
      (loopAudioLautst raw now t s2).state.region2 = s2.region2 ∧
      (loopAudioLautst raw now t s2).state.region3 = s2.region3 :=
  ⟨rfl, rfl, rfl, rfl, rfl, rfl, rfl, fun raw now t s2 => tick_keeps_metadata raw now t s2⟩

/-- C10: the station-changed handler performs the identical display update for
any two stream-supplied arguments: both write the Station Directory's
user-assigned name (`getCurrentStation().name`) to region 1 and ignore the
callback argument entirely, touching no other region. -/
theorem c10_showstation_ignores_arg (a1 a2 stationName : List Char) (s : AudioState) :
    audio_showstation a1 stationName s = audio_showstation a2 stationName s ∧
    (audio_showstation a1 stationName s).region1 = stationName ∧
    (audio_showstation a1 stationName s).region0 = s.region0 ∧
    (audio_showstation a1 stationName s).region2 = s.region2 ∧
    (audio_showstation a1 stationName s).region3 = s.region3 :=
  ⟨rfl, rfl, rfl, rfl, rfl⟩
